import Mathlib

/- Verification model of the PDF batch-compression script (src/compress.py).

Modelling conventions:
* byte counts and exit codes are Nat; Python floats are modelled as exact
  rationals (ℚ);
* Python exceptions are modelled with Except, and the state of the disk,
  the console messages printed, and the number of engine processes spawned
  are threaded explicitly and returned even on the raising paths;
* the external ghostscript process is an oracle mapping (input path,
  output path) to an exit code plus the file it wrote, if any;
* wall-clock time is an explicit parameter (the elapsed seconds of a job). -/

/- A regular file on disk: its path, its size in bytes, and an abstract
token standing for its byte content. -/
structure FileEntry where
  path : String
  size : Nat
  content : Nat
deriving DecidableEq

/- The directory tree handed to a run: whether the root is a readable
directory, and the regular files reachable under it, in walk order. -/
structure FS where
  rootReadable : Bool
  files : List FileEntry
deriving DecidableEq

/- Python exceptions that the script can raise. -/
inductive Err where
  | calledProcessError (exitCode : Nat)
  | fileNotFoundError (path : String)
  | zeroDivisionError
  | valueError (msg : String)
deriving DecidableEq

/- Decidable equality for Except values, used to compare modelled results. -/
instance exceptDecEq {ε α : Type} [DecidableEq ε] [DecidableEq α] :
    DecidableEq (Except ε α) := fun x y =>
  match x, y with
  | .ok a, .ok b =>
    if h : a = b then isTrue (congrArg Except.ok h)
    else isFalse (fun he => h (Except.ok.inj he))
  | .error a, .error b =>
    if h : a = b then isTrue (congrArg Except.error h)
    else isFalse (fun he => h (Except.error.inj he))
  | .ok _, .error _ => isFalse (fun he => Except.noConfusion he)
  | .error _, .ok _ => isFalse (fun he => Except.noConfusion he)

/- One console.print call: its text and its rich style. -/
structure Msg where
  text : String
  style : String
deriving DecidableEq

/- Result of os.path.getsize and friends: look a path up on the disk. -/
def getFile : List FileEntry → String → Option FileEntry
  | [], _ => none
  | e :: t, p => if e.path = p then some e else getFile t p

/- Effect of os.remove: drop the entry at a path. -/
def removeFile : List FileEntry → String → List FileEntry
  | [], _ => []
  | e :: t, p => if e.path = p then removeFile t p else e :: removeFile t p

/- Effect of writing a file at a path (creating it or truncating an
existing one). -/
def setFile (d : List FileEntry) (p : String) (sz ct : Nat) : List FileEntry :=
  removeFile d p ++ [⟨p, sz, ct⟩]

/- Python str.lower; Char.toLower covers the ASCII letters, which are the
only characters the '.pdf' check is sensitive to. -/
def pyLower (s : String) : String := String.mk (s.data.map Char.toLower)

/- Python str.endswith. -/
def strEndsWith (s suffix : String) : Bool := List.isSuffixOf suffix.data s.data

/- Python os.path.basename on a POSIX path: the part after the last
separator. -/
def pyBasename (p : String) : String :=
  String.mk ((p.data.reverse.takeWhile (fun c => c != '/')).reverse)

/- Python str.replace for a nonempty pattern: replace every non-overlapping
occurrence, scanning left to right, case-sensitively.  The Nat argument is
fuel instantiated with the length of the text, which bounds the recursion
(each step consumes at least one character). -/
def replaceAux (pat rep : List Char) : Nat → List Char → List Char
  | _, [] => []
  | 0, s => s
  | fuel + 1, c :: cs =>
    if List.isPrefixOf pat (c :: cs) then
      rep ++ replaceAux pat rep fuel (List.drop (pat.length - 1) cs)
    else
      c :: replaceAux pat rep fuel cs

def pyReplace (s pat rep : String) : String :=
  String.mk (replaceAux pat.data rep.data s.data.length s.data)

/- Conversion of a byte count to megabytes (source: size / (1024 * 1024)). -/
def mbOf (n : Nat) : ℚ := (n : ℚ) / (1024 * 1024)

/- Rendering of a nonnegative rational with exactly two decimal digits,
modelling the Python .2f format on the nonnegative values this program
produces (rounding half up; Python rounds the underlying binary float,
which agrees away from representation-edge cases). -/
def fmt2 (q : ℚ) : String :=
  let m : Nat := (((200 : Int) * q.num + (q.den : Int)) / (2 * (q.den : Int))).toNat
  toString (m / 100) ++ "." ++
    (if m % 100 < 10 then "0" ++ toString (m % 100) else toString (m % 100))

/- One CompressionOutcome dictionary as built at lines 99-107 (dry run) and
144-152 (real mode) of the source; the numeric fields are carried as exact
rationals and rendered with fmt2 where the source renders with .2f. -/
structure Outcome where
  fileName : String
  fileLocation : String
  originalSizeMB : ℚ
  compressedSizeMB : ℚ
  sizeReductionPct : ℚ
  timeTakenSec : ℚ
  compressedPDF : String
deriving DecidableEq

/- Behaviour of one spawned ghostscript process: its exit code, and the
(size, content) of the file it wrote at the requested output path, if any
(a failing process may have written partial output, or nothing). -/
structure EngineResult where
  exitCode : Nat
  written : Option (Nat × Nat)
deriving DecidableEq

/- The external engine as an oracle over (input path, output path). -/
def Engine : Type := String → String → EngineResult

/- Result of one worker invocation: the Python return value or the
exception raised, together with the final disk, the console messages
printed, and the number of engine processes spawned. -/
structure WorkerResult where
  result : Except Err (Option Outcome)
  disk : List FileEntry
  msgs : List Msg
  engineCalls : Nat
deriving DecidableEq

/- Output path computed at line 95 of the source:
file_path.replace('.pdf', '_compressed.pdf'). -/
def compressedFilePathOf (file_path : String) : String :=
  pyReplace file_path ".pdf" "_compressed.pdf"

/- Message printed on the dry-run branch (line 98). -/
def dryRunMsg (file_path : String) : Msg :=
  ⟨"[DRY RUN] simulating compression for: " ++ file_path, "bold blue"⟩

/- Messages printed on the size-regression branch (lines 128-131). -/
def skipMsgs (file_path : String) (original_size new_size : Nat) : List Msg :=
  [⟨"[WARNING] compression of " ++ file_path ++ " increased the file size.", "bold yellow"⟩,
   ⟨"    original size: " ++ fmt2 (mbOf original_size) ++ " MB", "yellow"⟩,
   ⟨"    compressed size: " ++ fmt2 (mbOf new_size) ++ " MB (larger than original!)", "yellow"⟩,
   ⟨"    skipping file.", "yellow"⟩]

/- Messages printed on the success branch (lines 138-142). -/
def doneMsgs (file_path : String) (original_size new_size : Nat) (elapsed : ℚ) : List Msg :=
  [⟨"[INFO] compression complete for: " ++ file_path, "bold green"⟩,
   ⟨"    original size: " ++ fmt2 (mbOf original_size) ++ " MB", "green"⟩,
   ⟨"    compressed size: " ++ fmt2 (mbOf new_size) ++ " MB", "green"⟩,
   ⟨"    size reduction: " ++ fmt2 (100 * (1 - (new_size : ℚ) / (original_size : ℚ))) ++ "%", "green"⟩,
   ⟨"    time taken: " ++ fmt2 elapsed ++ " seconds", "green"⟩]

/- Dictionary built on the dry-run branch (lines 99-107): simulated 20%
reduction, literal "0.00" elapsed time, file untouched. -/
def dryRunOutcome (file_path : String) (original_size : Nat) : Outcome where
  fileName := pyBasename file_path
  fileLocation := file_path
  originalSizeMB := mbOf original_size
  compressedSizeMB := mbOf original_size * (8 / 10)
  sizeReductionPct := 20
  timeTakenSec := 0
  compressedPDF := "file://" ++ file_path

/- Effect of the spawned engine process on the disk: whatever it wrote at
the requested output path during line 122, before the exit status check. -/
def engineWrite (disk : List FileEntry) (outPath : String) (er : EngineResult) :
    List FileEntry :=
  match er.written with
  | some (sz, ct) => setFile disk outPath sz ct
  | none => disk

/- Lines 122-152 of the source, from the return of subprocess.run onwards:
check=True raises CalledProcessError on a nonzero exit; os.path.getsize on
the output path raises FileNotFoundError if the engine wrote nothing there;
line 125 divides new_size by original_size and raises ZeroDivisionError
when the original size is zero (this happens before the size comparison at
line 127); a strictly larger output is removed and the worker returns None;
otherwise os.replace moves the output over the original. -/
def realCompress (disk1 : List FileEntry) (exitCode : Nat) (elapsed : ℚ)
    (file_path outPath : String) (original_size : Nat) : WorkerResult :=
  if exitCode ≠ 0 then ⟨.error (.calledProcessError exitCode), disk1, [], 1⟩
  else
    match getFile disk1 outPath with
    | none => ⟨.error (.fileNotFoundError outPath), disk1, [], 1⟩
    | some out =>
      if original_size = 0 then ⟨.error .zeroDivisionError, disk1, [], 1⟩
      else if original_size < out.size then
        ⟨.ok none, removeFile disk1 outPath, skipMsgs file_path original_size out.size, 1⟩
      else
        ⟨.ok (some
          { fileName := pyBasename file_path
            fileLocation := file_path
            originalSizeMB := mbOf original_size
            compressedSizeMB := mbOf out.size
            sizeReductionPct := 100 * (1 - (out.size : ℚ) / (original_size : ℚ))
            timeTakenSec := elapsed
            compressedPDF := "file://" ++ file_path }),
          setFile (removeFile disk1 outPath) file_path out.size out.content,
          doneMsgs file_path original_size out.size elapsed, 1⟩

/- compress_pdf_with_ghostscript (lines 89-152).  The global stop_execution
flag, the disk, the engine oracle and the elapsed wall-clock seconds are
explicit parameters.  os.path.abspath is modelled as the identity on the
already-rooted paths used here. -/
def compress_pdf_with_ghostscript (stop_execution : Bool) (disk : List FileEntry)
    (engine : Engine) (elapsed : ℚ) (file_path : String) (dry_run : Bool) :
    WorkerResult :=
  if stop_execution then ⟨.ok none, disk, [], 0⟩
  else
    match getFile disk file_path with
    | none => ⟨.error (.fileNotFoundError file_path), disk, [], 0⟩
    | some src =>
      if dry_run then
        ⟨.ok (some (dryRunOutcome file_path src.size)), disk, [dryRunMsg file_path], 0⟩
      else
        realCompress
          (engineWrite disk (compressedFilePathOf file_path)
            (engine file_path (compressedFilePathOf file_path)))
          (engine file_path (compressedFilePathOf file_path)).exitCode
          elapsed file_path (compressedFilePathOf file_path) src.size

/- List comprehension at line 160: walk the tree and keep every file whose
name lowercased ends in '.pdf' and whose size in MB (true division) is at
least min_size.  os.walk called with its default onerror=None silently
swallows the scandir error on a missing or unreadable root and yields
nothing, so discovery over such a root is empty.  The name yielded by
os.walk for an entry equals the basename of the joined path. -/
def discoverPdfFiles (fs : FS) (min_size : Nat) : List String :=
  if fs.rootReadable then
    (fs.files.filter (fun e =>
      strEndsWith (pyLower (pyBasename e.path)) ".pdf" &&
      decide ((min_size : ℚ) ≤ (e.size : ℚ) / (1024 * 1024)))).map (fun e => e.path)
  else []

/- Fixed column set of the CSV report (line 40). -/
def csvFieldnames : List String :=
  ["File Name", "Original Size (MB)", "Compressed Size (MB)", "Size Reduction (%)",
   "Time Taken (seconds)"]

/- Dictionary rendering of an outcome, exactly the seven keys the worker
puts into its returned dict. -/
def outcomeDict (o : Outcome) : List (String × String) :=
  [("File Name", o.fileName),
   ("File Location", o.fileLocation),
   ("Original Size (MB)", fmt2 o.originalSizeMB),
   ("Compressed Size (MB)", fmt2 o.compressedSizeMB),
   ("Size Reduction (%)", fmt2 o.sizeReductionPct),
   ("Time Taken (seconds)", fmt2 o.timeTakenSec),
   ("Compressed PDF", o.compressedPDF)]

def dictGet (row : List (String × String)) (k : String) : String :=
  (Option.map Prod.snd (row.find? (fun kv => kv.fst == k))).getD ""

/- csv.DictWriter._dict_to_list with the default extrasaction='raise': a
row holding any key outside fieldnames raises ValueError; missing keys are
filled with restval (the empty string). -/
def dictToRow (row : List (String × String)) : Except Err (List String) :=
  if (row.map Prod.fst).all (fun k => csvFieldnames.contains k) then
    .ok (csvFieldnames.map (fun k => dictGet row k))
  else .error (.valueError "dict contains fields not in fieldnames")

/- create_csv_report (lines 39-45): write the header row when the file does
not yet exist, then append one row per outcome dictionary via DictWriter.
DictWriter checks every row's keys against fieldnames. -/
def create_csv_report (reportExists : Bool) (data : List (List (String × String))) :
    Except Err (List (List String)) :=
  match data.mapM dictToRow with
  | .error e => .error e
  | .ok rows => .ok ((if reportExists then [] else [csvFieldnames]) ++ rows)

/- create_html_report (lines 48-86): regenerated fresh each run, one table
row per outcome dictionary, reading exactly these seven keys. -/
def create_html_report (data : List (List (String × String))) : List (List String) :=
  data.map (fun e =>
    [dictGet e "File Name", dictGet e "File Location", dictGet e "Original Size (MB)",
     dictGet e "Compressed Size (MB)", dictGet e "Size Reduction (%)",
     dictGet e "Time Taken (seconds)", dictGet e "Compressed PDF"])

/- Result of the result-collection loop over the discovered files. -/
structure LoopResult where
  result : Except Err Unit
  results : List Outcome
  disk : List FileEntry
  msgs : List Msg
  engineCalls : Nat
deriving DecidableEq

/- Sequential model of the collection loop at lines 169-173: pool.imap
yields worker results in submission order, and an exception raised inside a
worker function is re-raised at the collection point, aborting the loop
(the enclosing with-blocks then tear the pool down).  The multiprocessing
transport itself is abstracted away. -/
def poolLoop (engine : Engine) (elapsedOf : String → ℚ) (dry_run stop : Bool) :
    List FileEntry → List String → LoopResult
  | disk, [] => ⟨.ok (), [], disk, [], 0⟩
  | disk, p :: rest =>
    let w := compress_pdf_with_ghostscript stop disk engine (elapsedOf p) p dry_run
    match w.result with
    | .error e => ⟨.error e, [], w.disk, w.msgs, w.engineCalls⟩
    | .ok r =>
      let t := poolLoop engine elapsedOf dry_run stop w.disk rest
      ⟨t.result, (match r with | some o => o :: t.results | none => t.results),
       t.disk, w.msgs ++ t.msgs, w.engineCalls + t.engineCalls⟩

/- Result of one whole run: the Python return or the exception that
escaped, the collected outcomes, the final disk, the messages printed, the
engine processes spawned, and the rows appended to the CSV report and
rendered into the HTML report (none when that report was never written). -/
structure RunResult where
  result : Except Err Unit
  results : List Outcome
  disk : List FileEntry
  msgs : List Msg
  engineCalls : Nat
  csvAppended : Option (List (List String))
  htmlRows : Option (List (List String))
deriving DecidableEq

def noPdfMsg : Msg := ⟨"[INFO] no pdf files found to compress.", "bold yellow"⟩

def reportsDoneMsg : Msg :=
  ⟨"[INFO] compression complete. reports saved.", "bold green"⟩

/- compress_pdfs_in_directory (lines 155-188).  max_threads, log_file and
verbose only affect transport and presentation and are not modelled.  When
discovery is empty the function prints and returns before any report is
touched; the CSV report is written (line 175) before the HTML report
(line 176), so an exception from the CSV writer leaves both unwritten. -/
def compress_pdfs_in_directory (fs : FS) (engine : Engine) (elapsedOf : String → ℚ)
    (stop dry_run : Bool) (min_size : Nat) (reportExists : Bool) : RunResult :=
  if (discoverPdfFiles fs min_size).isEmpty then
    ⟨.ok (), [], fs.files, [noPdfMsg], 0, none, none⟩
  else
    match poolLoop engine elapsedOf dry_run stop fs.files (discoverPdfFiles fs min_size) with
    | ⟨.error e, rs, d1, m, c⟩ => ⟨.error e, rs, d1, m, c, none, none⟩
    | ⟨.ok _, rs, d1, m, c⟩ =>
      match create_csv_report reportExists (rs.map outcomeDict) with
      | .error e => ⟨.error e, rs, d1, m, c, none, none⟩
      | .ok rows =>
        ⟨.ok (), rs, d1, m ++ [reportsDoneMsg], c, some rows,
         some (create_html_report (rs.map outcomeDict))⟩

/- Observable effect of one call to the interrupt handler (lines 30-34):
the value the global stop_execution flag is left with, the messages
printed, and the exit code passed to sys.exit, if the handler exits the
process. -/
structure HandlerResult where
  stop_execution : Bool
  msgs : List Msg
  exitCode : Option Nat
deriving DecidableEq

/- signal_handler (lines 30-34): print, set the global flag to True, and
call sys.exit(0), which immediately unwinds the main process. -/
def signal_handler (_sig : Nat) : HandlerResult :=
  ⟨true, [⟨"[INFO] ctrl+c detected. stopping gracefully...", "bold yellow"⟩], some 0⟩

/- Modelled from the spec, for comparison with the source behaviour: the
claim that in-flight jobs are allowed to run to completion (no forced
termination mid-engine-invocation) requires the interrupt handler to return
control after setting the flag.  Exiting the process from inside the active
Pool with-block runs the pool's terminate(), which forcibly kills in-flight
workers, so the claim holds only if the handler does not exit. -/
def handlerLetsInflightJobsFinish : Prop :=
  ∀ sig : Nat, (signal_handler sig).exitCode = none

/- Style test for a warning-level diagnostic (rich styles used by the
warning prints in the source). -/
def isWarningStyle (m : Msg) : Bool := m.style == "bold yellow" || m.style == "yellow"

/- Concrete disks and engines used by the closed witness and counterexample
theorems below. -/
def diskA : List FileEntry := [⟨"d/a.pdf", 100, 7⟩]

def diskAB : List FileEntry := [⟨"d/a.pdf", 100, 7⟩, ⟨"d/b.pdf", 200, 8⟩]

def diskZero : List FileEntry := [⟨"d/a.pdf", 0, 5⟩]

def diskFive : List FileEntry := [⟨"docs/a.pdf", 5242880, 3⟩]

def fsA : FS := ⟨true, diskA⟩

def fsAB : FS := ⟨true, diskAB⟩

def fsFive : FS := ⟨true, diskFive⟩

def fsUnreadable : FS := ⟨false, diskA⟩

/- Engine that fails with exit code 1, leaving 10 bytes of partial output. -/
def engineFail1 : Engine := fun _ _ => ⟨1, some (10, 99)⟩

/- Engine that succeeds, writing a 50-byte output. -/
def engineHalf : Engine := fun _ _ => ⟨0, some (50, 11)⟩

/- Engine that succeeds, writing a 300-byte output. -/
def engineBig : Engine := fun _ _ => ⟨0, some (300, 12)⟩

/- Engine that succeeds, writing a 1-byte output. -/
def engineOne : Engine := fun _ _ => ⟨0, some (1, 9)⟩

/- Engine that succeeds, writing a 100-byte output. -/
def engineEq : Engine := fun _ _ => ⟨0, some (100, 13)⟩

/- Engine that succeeds, writing a 0-byte output. -/
def engineNil : Engine := fun _ _ => ⟨0, some (0, 6)⟩

/- Size filter of the discovery comprehension: the true-division comparison
size / (1024*1024) >= min_size is equivalent to the byte comparison
min_size * 1048576 <= size. -/
theorem minSizeFilter_iff (ms sz : Nat) :
    ((ms : ℚ) ≤ (sz : ℚ) / (1024 * 1024)) ↔ ms * 1048576 ≤ sz := by
  rw [le_div_iff₀ (by norm_num : (0:ℚ) < 1024 * 1024)]
  rw [show ((1024 * 1024 : ℚ)) = ((1048576 : ℕ) : ℚ) by norm_num]
  rw [← Nat.cast_mul, Nat.cast_le]

/- Discovery with the size filter restated over byte counts. -/
theorem discoverPdfFiles_eq (fs : FS) (min_size : Nat) :
    discoverPdfFiles fs min_size =
      if fs.rootReadable then
        (fs.files.filter (fun e =>
          strEndsWith (pyLower (pyBasename e.path)) ".pdf" &&
          decide (min_size * 1048576 ≤ e.size))).map (fun e => e.path)
      else [] := by
  unfold discoverPdfFiles
  have hfun : (fun e : FileEntry =>
      strEndsWith (pyLower (pyBasename e.path)) ".pdf" &&
      decide ((min_size : ℚ) ≤ (e.size : ℚ) / (1024 * 1024))) =
      (fun e : FileEntry =>
      strEndsWith (pyLower (pyBasename e.path)) ".pdf" &&
      decide (min_size * 1048576 ≤ e.size)) := by
    funext e
    rw [decide_eq_decide.mpr (minSizeFilter_iff min_size e.size)]
  rw [hfun]

theorem getFile_removeFile_self (d : List FileEntry) (p : String) :
    getFile (removeFile d p) p = none := by
  induction d with
  | nil => rfl
  | cons e t ih =>
    by_cases h : e.path = p
    · simpa [removeFile, h] using ih
    · simp [removeFile, getFile, h, ih]

theorem getFile_removeFile_ne (d : List FileEntry) (p q : String) (h : q ≠ p) :
    getFile (removeFile d p) q = getFile d q := by
  have hpq : ¬ p = q := fun hqq => h hqq.symm
  induction d with
  | nil => rfl
  | cons e t ih =>
    by_cases he : e.path = p
    · simp [removeFile, getFile, he, hpq, ih]
    · by_cases heq : e.path = q
      · simp [removeFile, getFile, he, heq, h]
      · simp [removeFile, getFile, he, heq, ih]

theorem getFile_setFile_self (d : List FileEntry) (p : String) (sz ct : Nat) :
    getFile (setFile d p sz ct) p = some ⟨p, sz, ct⟩ := by
  unfold setFile
  induction d with
  | nil => simp [getFile]
  | cons e t ih =>
    by_cases h : e.path = p
    · simpa [removeFile, h] using ih
    · simpa [removeFile, getFile, h] using ih

theorem getFile_setFile_ne (d : List FileEntry) (p q : String) (sz ct : Nat) (h : q ≠ p) :
    getFile (setFile d p sz ct) q = getFile d q := by
  have hpq : ¬ p = q := fun hqq => h hqq.symm
  unfold setFile
  induction d with
  | nil => simp [getFile, removeFile, hpq]
  | cons e t ih =>
    by_cases he : e.path = p
    · simp [removeFile, getFile, he, hpq, ih]
    · by_cases heq : e.path = q
      · simp [removeFile, getFile, he, heq, h]
      · simp [removeFile, getFile, he, heq, ih]

/- With the stop flag set the worker returns None immediately: no disk
change, no message, no engine process. -/
theorem worker_stop (disk : List FileEntry) (engine : Engine) (elapsed : ℚ)
    (file_path : String) (dry_run : Bool) :
    compress_pdf_with_ghostscript true disk engine elapsed file_path dry_run =
      ⟨.ok none, disk, [], 0⟩ := rfl

/- Dry-run branch of the worker for an existing file. -/
theorem worker_dry (disk : List FileEntry) (engine : Engine) (elapsed : ℚ)
    (file_path : String) (src : FileEntry) (h : getFile disk file_path = some src) :
    compress_pdf_with_ghostscript false disk engine elapsed file_path true =
      ⟨.ok (some (dryRunOutcome file_path src.size)), disk, [dryRunMsg file_path], 0⟩ := by
  simp [compress_pdf_with_ghostscript, h]

/- Real-mode branch of the worker for an existing file, expressed through
realCompress. -/
theorem worker_real (disk : List FileEntry) (engine : Engine) (elapsed : ℚ)
    (file_path : String) (src : FileEntry) (h : getFile disk file_path = some src) :
    compress_pdf_with_ghostscript false disk engine elapsed file_path false =
      realCompress
        (engineWrite disk (compressedFilePathOf file_path)
          (engine file_path (compressedFilePathOf file_path)))
        (engine file_path (compressedFilePathOf file_path)).exitCode
        elapsed file_path (compressedFilePathOf file_path) src.size := by
  simp [compress_pdf_with_ghostscript, h]

/- Nonzero engine exit: CalledProcessError, no cleanup of the output path. -/
theorem realCompress_fail (disk1 : List FileEntry) (code : Nat) (elapsed : ℚ)
    (file_path outPath : String) (osz : Nat) (h : code ≠ 0) :
    realCompress disk1 code elapsed file_path outPath osz =
      ⟨.error (.calledProcessError code), disk1, [], 1⟩ := by
  simp [realCompress, h]

/- Size-regression branch: warnings, output removed, None returned. -/
theorem realCompress_skip (disk1 : List FileEntry) (elapsed : ℚ)
    (file_path outPath : String) (osz : Nat) (out : FileEntry)
    (hout : getFile disk1 outPath = some out) (h0 : osz ≠ 0) (hgt : osz < out.size) :
    realCompress disk1 0 elapsed file_path outPath osz =
      ⟨.ok none, removeFile disk1 outPath, skipMsgs file_path osz out.size, 1⟩ := by
  simp [realCompress, hout, h0, hgt]

/- Success branch: output moved over the original, outcome returned. -/
theorem realCompress_done (disk1 : List FileEntry) (elapsed : ℚ)
    (file_path outPath : String) (osz : Nat) (out : FileEntry)
    (hout : getFile disk1 outPath = some out) (h0 : osz ≠ 0) (hle : out.size ≤ osz) :
    realCompress disk1 0 elapsed file_path outPath osz =
      ⟨.ok (some
        { fileName := pyBasename file_path
          fileLocation := file_path
          originalSizeMB := mbOf osz
          compressedSizeMB := mbOf out.size
          sizeReductionPct := 100 * (1 - (out.size : ℚ) / (osz : ℚ))
          timeTakenSec := elapsed
          compressedPDF := "file://" ++ file_path }),
        setFile (removeFile disk1 outPath) file_path out.size out.content,
        doneMsgs file_path osz out.size elapsed, 1⟩ := by
  simp [realCompress, hout, h0, Nat.not_lt.mpr hle]

/- Inversion: a populated outcome arises only on the success branch, with a
nonzero original size and an output no larger than the original. -/
theorem realCompress_ok_some (disk1 : List FileEntry) (code : Nat) (elapsed : ℚ)
    (file_path outPath : String) (osz : Nat) (o : Outcome)
    (h : (realCompress disk1 code elapsed file_path outPath osz).result = .ok (some o)) :
    ∃ out : FileEntry, getFile disk1 outPath = some out ∧ osz ≠ 0 ∧ out.size ≤ osz ∧
      o.originalSizeMB = mbOf osz ∧ o.compressedSizeMB = mbOf out.size ∧
      o.sizeReductionPct = 100 * (1 - (out.size : ℚ) / (osz : ℚ)) := by
  unfold realCompress at h
  by_cases hc : code ≠ 0
  · simp [hc] at h
  · rcases hg : getFile disk1 outPath with _ | out
    · simp [hc, hg] at h
    · by_cases h0 : osz = 0
      · simp [hc, hg, h0] at h
      · by_cases hlt : osz < out.size
        · simp [hc, hg, h0, hlt] at h
        · simp [hc, hg, h0, hlt] at h
          exact ⟨out, rfl, h0, Nat.not_lt.mp hlt, by rw [← h], by rw [← h], by rw [← h]⟩

/-- C2 (code bug): discovery accepts file names ending in '.pdf'
case-insensitively, but the output path is computed with the case-sensitive
str.replace of '.pdf'; for an uppercase '.PDF' file the replacement finds
nothing and the computed temporary output path equals the source path, so
the engine is pointed at the source file itself. -/
theorem uppercase_pdf_output_path_collides :
    strEndsWith (pyLower (pyBasename "docs/report.PDF")) ".pdf" = true ∧
    compressedFilePathOf "docs/report.PDF" = "docs/report.PDF" := by
  exact ⟨by decide, by decide⟩

/-- C3 counterexample: the interrupt handler does not let in-flight jobs
finish; after setting the flag it immediately calls sys.exit(0), and the
process unwind tears down the active pool, terminating in-flight workers. -/
theorem handler_exits_process_immediately : ¬ handlerLetsInflightJobsFinish := by
  intro h
  have h2 := h 2
  simp [signal_handler] at h2

/-- C3 (amended): a worker invocation that sees the flag set returns None
without touching the disk, printing, or spawning an engine process; but the
interrupt handler, after setting the flag, immediately exits the process
with code 0 instead of letting in-flight jobs run to completion. -/
theorem cancellation_flag_vs_handler_exit :
    (∀ (disk : List FileEntry) (engine : Engine) (elapsed : ℚ) (p : String) (d : Bool),
      compress_pdf_with_ghostscript true disk engine elapsed p d = ⟨.ok none, disk, [], 0⟩) ∧
    (∀ sig : Nat,
      (signal_handler sig).stop_execution = true ∧ (signal_handler sig).exitCode = some 0) :=
  ⟨fun disk engine elapsed p d => worker_stop disk engine elapsed p d,
   fun _ => ⟨rfl, rfl⟩⟩

/-- C5 counterexample: for a zero-byte original file whose engine output is
strictly larger (1 byte), the worker does not skip with a warning: line 125
divides by the zero original size and raises ZeroDivisionError, the
temporary file is not deleted, and no diagnostic is printed. -/
theorem zero_size_regression_raises :
    (compress_pdf_with_ghostscript false diskZero engineOne 0 "d/a.pdf" false).result
        = .error .zeroDivisionError ∧
    getFile (compress_pdf_with_ghostscript false diskZero engineOne 0 "d/a.pdf" false).disk
        "d/a_compressed.pdf" = some ⟨"d/a_compressed.pdf", 1, 9⟩ ∧
    (compress_pdf_with_ghostscript false diskZero engineOne 0 "d/a.pdf" false).msgs = [] := by
  decide

/-- C5 (amended): when the engine succeeds, the original size is nonzero,
the output is strictly larger than the original, and the computed temporary
path differs from the source path, the worker deletes the temporary file,
prints the warning diagnostics, returns None (a skip, not an error), and
leaves the original file untouched. -/
theorem size_regression_skip (disk : List FileEntry) (engine : Engine) (elapsed : ℚ)
    (p : String) (src : FileEntry) (sz ct : Nat)
    (hsrc : getFile disk p = some src)
    (heng : engine p (compressedFilePathOf p) = ⟨0, some (sz, ct)⟩)
    (h0 : src.size ≠ 0) (hgt : src.size < sz)
    (hne : compressedFilePathOf p ≠ p) :
    (compress_pdf_with_ghostscript false disk engine elapsed p false).result = .ok none ∧
    (compress_pdf_with_ghostscript false disk engine elapsed p false).msgs =
        skipMsgs p src.size sz ∧
    ((compress_pdf_with_ghostscript false disk engine elapsed p false).msgs.any
        isWarningStyle) = true ∧
    getFile (compress_pdf_with_ghostscript false disk engine elapsed p false).disk p =
        some src ∧
    getFile (compress_pdf_with_ghostscript false disk engine elapsed p false).disk
        (compressedFilePathOf p) = none ∧
    (compress_pdf_with_ghostscript false disk engine elapsed p false).engineCalls = 1 := by
  have hpne : p ≠ compressedFilePathOf p := fun hh => hne hh.symm
  have hw2 : compress_pdf_with_ghostscript false disk engine elapsed p false =
      realCompress (setFile disk (compressedFilePathOf p) sz ct) 0 elapsed p
        (compressedFilePathOf p) src.size := by
    rw [worker_real disk engine elapsed p src hsrc, heng]
    rfl
  have hout := getFile_setFile_self disk (compressedFilePathOf p) sz ct
  have hskip := realCompress_skip (setFile disk (compressedFilePathOf p) sz ct) elapsed p
    (compressedFilePathOf p) src.size ⟨compressedFilePathOf p, sz, ct⟩ hout h0 hgt
  rw [hw2, hskip]
  refine ⟨rfl, rfl, ?_, ?_, ?_, rfl⟩
  · simp [skipMsgs, isWarningStyle]
  · rw [show WorkerResult.disk ⟨Except.ok none,
        removeFile (setFile disk (compressedFilePathOf p) sz ct) (compressedFilePathOf p),
        skipMsgs p src.size (⟨compressedFilePathOf p, sz, ct⟩ : FileEntry).size, 1⟩ =
        removeFile (setFile disk (compressedFilePathOf p) sz ct) (compressedFilePathOf p)
        from rfl]
    rw [getFile_removeFile_ne _ _ _ hpne, getFile_setFile_ne _ _ _ _ _ hpne]
    exact hsrc
  · exact getFile_removeFile_self _ _

/-- C5 witness: concrete instance of the amended claim. -/
theorem size_regression_skip_wit :
    ((⟨"d/a.pdf", 100, 7⟩ : FileEntry).size ≠ 0 ∧
     (⟨"d/a.pdf", 100, 7⟩ : FileEntry).size < 300 ∧
     compressedFilePathOf "d/a.pdf" ≠ "d/a.pdf") ∧
    (compress_pdf_with_ghostscript false diskA engineBig 0 "d/a.pdf" false).result = .ok none ∧
    getFile (compress_pdf_with_ghostscript false diskA engineBig 0 "d/a.pdf" false).disk
        "d/a.pdf" = some ⟨"d/a.pdf", 100, 7⟩ ∧
    getFile (compress_pdf_with_ghostscript false diskA engineBig 0 "d/a.pdf" false).disk
        "d/a_compressed.pdf" = none :=
  have h := size_regression_skip diskA engineBig 0 "d/a.pdf" ⟨"d/a.pdf", 100, 7⟩ 300 12
    (by decide) (by decide) (by decide) (by decide) (by decide)
  ⟨⟨by decide, by decide, by decide⟩, h.1, h.2.2.2.1, by
    have h5 := h.2.2.2.2.1
    rwa [show compressedFilePathOf "d/a.pdf" = "d/a_compressed.pdf" by decide] at h5⟩

/-- C6 counterexample: with a root that is not a readable directory the run
does not fail; os.walk swallows the error, discovery is empty, the program
prints the no-files message and returns normally. -/
theorem unreadable_root_run_returns_ok :
    (compress_pdfs_in_directory fsUnreadable engineHalf (fun _ => 0) false false 0
        false).result = .ok () ∧
    (compress_pdfs_in_directory fsUnreadable engineHalf (fun _ => 0) false false 0
        false).msgs = [noPdfMsg] := ⟨rfl, rfl⟩

/-- C6 (amended): for a root that is not a readable directory the run
returns normally without raising, processes no job, spawns no engine
process, and writes neither report; the only diagnostic is the no-files
message. -/
theorem unreadable_root_yields_empty_run (files : List FileEntry) (engine : Engine)
    (elapsedOf : String → ℚ) (stop dry_run : Bool) (min_size : Nat) (reportExists : Bool) :
    compress_pdfs_in_directory ⟨false, files⟩ engine elapsedOf stop dry_run min_size
        reportExists = ⟨.ok (), [], files, [noPdfMsg], 0, none, none⟩ := rfl

/-- C7: in dry-run mode, for an existing file and with the stop flag unset,
the worker returns a simulated outcome whose compressed size is 0.8 times
the original, whose rendered size reduction is "20.00" and rendered elapsed
time is "0.00"; the disk is unchanged and no engine process is spawned. -/
theorem dry_run_simulated_outcome (disk : List FileEntry) (engine : Engine) (elapsed : ℚ)
    (file_path : String) (src : FileEntry) (h : getFile disk file_path = some src) :
    ∃ o : Outcome,
      compress_pdf_with_ghostscript false disk engine elapsed file_path true =
        ⟨.ok (some o), disk, [dryRunMsg file_path], 0⟩ ∧
      o.compressedSizeMB = o.originalSizeMB * (8 / 10) ∧
      fmt2 o.sizeReductionPct = "20.00" ∧
      fmt2 o.timeTakenSec = "0.00" := by
  refine ⟨dryRunOutcome file_path src.size,
    worker_dry disk engine elapsed file_path src h, rfl, ?_, ?_⟩
  · show fmt2 20 = "20.00"
    decide
  · show fmt2 0 = "0.00"
    decide

/-- C7 witness: concrete instance for a 5 MB file. -/
theorem dry_run_simulated_outcome_wit :
    getFile diskFive "docs/a.pdf" = some ⟨"docs/a.pdf", 5242880, 3⟩ ∧
    (∃ o : Outcome,
      compress_pdf_with_ghostscript false diskFive engineHalf 0 "docs/a.pdf" true =
        ⟨.ok (some o), diskFive, [dryRunMsg "docs/a.pdf"], 0⟩ ∧
      o.compressedSizeMB = o.originalSizeMB * (8 / 10) ∧
      fmt2 o.sizeReductionPct = "20.00" ∧
      fmt2 o.timeTakenSec = "0.00") :=
  ⟨by decide, dry_run_simulated_outcome diskFive engineHalf 0 "docs/a.pdf"
    ⟨"docs/a.pdf", 5242880, 3⟩ (by decide)⟩

/-- C8: discovery over a readable root emits a job exactly for the files
whose name ends in '.pdf' case-insensitively and whose size passes the
minimum-size threshold (min_size megabytes, i.e. min_size * 1048576 bytes);
files failing either condition yield no job. -/
theorem discovery_emits_matching_files (fs : FS) (min_size : Nat) (p : String)
    (hroot : fs.rootReadable = true) :
    p ∈ discoverPdfFiles fs min_size ↔
      ∃ e ∈ fs.files, e.path = p ∧
        strEndsWith (pyLower (pyBasename e.path)) ".pdf" = true ∧
        min_size * 1048576 ≤ e.size := by
  rw [discoverPdfFiles_eq, hroot]
  simp only [if_true, List.mem_map, List.mem_filter]
  constructor
  · rintro ⟨e, ⟨hmem, hcond⟩, hpath⟩
    rw [Bool.and_eq_true, decide_eq_true_eq] at hcond
    exact ⟨e, hmem, hpath, hcond.1, hcond.2⟩
  · rintro ⟨e, hmem, hpath, h1, h2⟩
    exact ⟨e, ⟨hmem, by rw [Bool.and_eq_true, decide_eq_true_eq]; exact ⟨h1, h2⟩⟩, hpath⟩

/-- C8 witness: concrete instance over a two-file tree. -/
theorem discovery_emits_matching_files_wit :
    fsAB.rootReadable = true ∧
    ("d/a.pdf" ∈ discoverPdfFiles fsAB 0 ↔
      ∃ e ∈ fsAB.files, e.path = "d/a.pdf" ∧
        strEndsWith (pyLower (pyBasename e.path)) ".pdf" = true ∧
        0 * 1048576 ≤ e.size) :=
  ⟨rfl, discovery_emits_matching_files fsAB 0 "d/a.pdf" rfl⟩

/- Collection loop on a first job whose worker raises: the exception is
re-raised at the collection point and the loop aborts. -/
theorem poolLoop_cons_error (engine : Engine) (elapsedOf : String → ℚ)
    (dry_run stop : Bool) (disk : List FileEntry) (p : String) (rest : List String)
    (e : Err) (d1 : List FileEntry) (m : List Msg) (c : Nat)
    (hw : compress_pdf_with_ghostscript stop disk engine (elapsedOf p) p dry_run =
      ⟨.error e, d1, m, c⟩) :
    poolLoop engine elapsedOf dry_run stop disk (p :: rest) = ⟨.error e, [], d1, m, c⟩ := by
  unfold poolLoop
  rw [hw]

/- A run whose discovery is nonempty and whose collection loop raises: the
exception escapes before any report is written. -/
theorem run_of_loop_error (fs : FS) (engine : Engine) (elapsedOf : String → ℚ)
    (stop dry_run : Bool) (min_size : Nat) (reportExists : Bool)
    (p : String) (rest : List String) (e : Err) (rs : List Outcome)
    (d1 : List FileEntry) (m : List Msg) (c : Nat)
    (hdisc : discoverPdfFiles fs min_size = p :: rest)
    (hloop : poolLoop engine elapsedOf dry_run stop fs.files (p :: rest) =
      ⟨.error e, rs, d1, m, c⟩) :
    compress_pdfs_in_directory fs engine elapsedOf stop dry_run min_size reportExists =
      ⟨.error e, rs, d1, m, c, none, none⟩ := by
  unfold compress_pdfs_in_directory
  rw [hdisc, hloop]
  rfl

/-- C1 counterexample: a two-file run whose first engine invocation exits
nonzero does not continue with the remaining jobs: the CalledProcessError
from subprocess.run(check=True) propagates through the collection loop, the
run aborts with it, no outcome is collected, no program-level diagnostic is
printed, and neither report is written. -/
theorem run_aborts_on_engine_failure_cex :
    (compress_pdfs_in_directory fsAB engineFail1 (fun _ => 0) false false 0 false).result =
        .error (.calledProcessError 1) ∧
    (compress_pdfs_in_directory fsAB engineFail1 (fun _ => 0) false false 0 false).results =
        [] ∧
    (compress_pdfs_in_directory fsAB engineFail1 (fun _ => 0) false false 0 false).msgs =
        [] ∧
    (compress_pdfs_in_directory fsAB engineFail1 (fun _ => 0) false false 0
        false).csvAppended = none ∧
    (compress_pdfs_in_directory fsAB engineFail1 (fun _ => 0) false false 0 false).htmlRows =
        none := by
  unfold compress_pdfs_in_directory
  rw [discoverPdfFiles_eq]
  decide

/-- C1 (amended): when the engine invocation of the first discovered job
exits nonzero, that job contributes no outcome, but the raised
CalledProcessError aborts the whole run: the run result is that error and
neither the CSV nor the HTML report is written. -/
theorem engine_failure_aborts_run (fs : FS) (engine : Engine) (elapsedOf : String → ℚ)
    (min_size : Nat) (reportExists : Bool) (p : String) (rest : List String)
    (src : FileEntry)
    (hdisc : discoverPdfFiles fs min_size = p :: rest)
    (hsrc : getFile fs.files p = some src)
    (hfail : (engine p (compressedFilePathOf p)).exitCode ≠ 0) :
    (compress_pdfs_in_directory fs engine elapsedOf false false min_size
        reportExists).result =
      .error (.calledProcessError (engine p (compressedFilePathOf p)).exitCode) ∧
    (compress_pdfs_in_directory fs engine elapsedOf false false min_size
        reportExists).results = [] ∧
    (compress_pdfs_in_directory fs engine elapsedOf false false min_size
        reportExists).csvAppended = none ∧
    (compress_pdfs_in_directory fs engine elapsedOf false false min_size
        reportExists).htmlRows = none := by
  have hw : compress_pdf_with_ghostscript false fs.files engine (elapsedOf p) p false =
      ⟨.error (.calledProcessError (engine p (compressedFilePathOf p)).exitCode),
       engineWrite fs.files (compressedFilePathOf p) (engine p (compressedFilePathOf p)),
       [], 1⟩ := by
    rw [worker_real fs.files engine (elapsedOf p) p src hsrc,
        realCompress_fail _ _ _ _ _ _ hfail]
  have hloop := poolLoop_cons_error engine elapsedOf false false fs.files p rest _ _ _ _ hw
  have hrun := run_of_loop_error fs engine elapsedOf false false min_size reportExists
    p rest _ _ _ _ _ hdisc hloop
  rw [hrun]
  exact ⟨rfl, rfl, rfl, rfl⟩

/-- C1 witness: concrete instance of the amended claim. -/
theorem engine_failure_aborts_run_wit :
    (discoverPdfFiles fsAB 0 = ["d/a.pdf", "d/b.pdf"] ∧
     getFile fsAB.files "d/a.pdf" = some ⟨"d/a.pdf", 100, 7⟩ ∧
     (engineFail1 "d/a.pdf" (compressedFilePathOf "d/a.pdf")).exitCode ≠ 0) ∧
    (compress_pdfs_in_directory fsAB engineFail1 (fun _ => 1) false false 0 true).result =
      .error (.calledProcessError
        (engineFail1 "d/a.pdf" (compressedFilePathOf "d/a.pdf")).exitCode) ∧
    (compress_pdfs_in_directory fsAB engineFail1 (fun _ => 1) false false 0 true).results =
        [] ∧
    (compress_pdfs_in_directory fsAB engineFail1 (fun _ => 1) false false 0
        true).csvAppended = none ∧
    (compress_pdfs_in_directory fsAB engineFail1 (fun _ => 1) false false 0 true).htmlRows =
        none :=
  have hd : discoverPdfFiles fsAB 0 = ["d/a.pdf", "d/b.pdf"] := by
    rw [discoverPdfFiles_eq]; decide
  ⟨⟨hd, by decide, by decide⟩,
   engine_failure_aborts_run fsAB engineFail1 (fun _ => 1) 0 true "d/a.pdf" ["d/b.pdf"]
     ⟨"d/a.pdf", 100, 7⟩ hd (by decide) (by decide)⟩

/-- C4 counterexample: a failed engine invocation that wrote partial output
leaves that partial temporary file on disk after the worker raises; nothing
cleans it up on the raising path. -/
theorem failed_engine_leaves_partial_temp :
    (compress_pdf_with_ghostscript false diskA engineFail1 0 "d/a.pdf" false).result =
        .error (.calledProcessError 1) ∧
    getFile (compress_pdf_with_ghostscript false diskA engineFail1 0 "d/a.pdf" false).disk
        "d/a_compressed.pdf" = some ⟨"d/a_compressed.pdf", 10, 99⟩ := by
  decide

/-- C4 (amended): on the size-rejection exit path the temporary file is
removed, and on the success exit path the temporary file is renamed onto
the source (so it no longer exists at the temporary path whenever that path
differs from the source); but on the engine-failure exit path no cleanup
happens: whatever the engine wrote at the temporary path remains on disk. -/
theorem temp_file_lifecycle :
    (∀ (disk : List FileEntry) (engine : Engine) (elapsed : ℚ) (p : String)
        (src : FileEntry) (code sz ct : Nat),
      getFile disk p = some src →
      engine p (compressedFilePathOf p) = ⟨code, some (sz, ct)⟩ → code ≠ 0 →
      (compress_pdf_with_ghostscript false disk engine elapsed p false).result =
          .error (.calledProcessError code) ∧
      getFile (compress_pdf_with_ghostscript false disk engine elapsed p false).disk
          (compressedFilePathOf p) = some ⟨compressedFilePathOf p, sz, ct⟩) ∧
    (∀ (disk : List FileEntry) (engine : Engine) (elapsed : ℚ) (p : String)
        (src : FileEntry) (sz ct : Nat),
      getFile disk p = some src →
      engine p (compressedFilePathOf p) = ⟨0, some (sz, ct)⟩ →
      src.size ≠ 0 → src.size < sz →
      getFile (compress_pdf_with_ghostscript false disk engine elapsed p false).disk
          (compressedFilePathOf p) = none) ∧
    (∀ (disk : List FileEntry) (engine : Engine) (elapsed : ℚ) (p : String)
        (src : FileEntry) (sz ct : Nat),
      getFile disk p = some src →
      engine p (compressedFilePathOf p) = ⟨0, some (sz, ct)⟩ →
      src.size ≠ 0 → sz ≤ src.size → compressedFilePathOf p ≠ p →
      getFile (compress_pdf_with_ghostscript false disk engine elapsed p false).disk
          (compressedFilePathOf p) = none) := by
  refine ⟨?_, ?_, ?_⟩
  · intro disk engine elapsed p src code sz ct hsrc heng hc
    have hw2 : compress_pdf_with_ghostscript false disk engine elapsed p false =
        realCompress (setFile disk (compressedFilePathOf p) sz ct) code elapsed p
          (compressedFilePathOf p) src.size := by
      rw [worker_real disk engine elapsed p src hsrc, heng]
      rfl
    rw [hw2, realCompress_fail _ _ _ _ _ _ hc]
    exact ⟨rfl, getFile_setFile_self _ _ _ _⟩
  · intro disk engine elapsed p src sz ct hsrc heng h0 hgt
    have hw2 : compress_pdf_with_ghostscript false disk engine elapsed p false =
        realCompress (setFile disk (compressedFilePathOf p) sz ct) 0 elapsed p
          (compressedFilePathOf p) src.size := by
      rw [worker_real disk engine elapsed p src hsrc, heng]
      rfl
    have hout := getFile_setFile_self disk (compressedFilePathOf p) sz ct
    rw [hw2, realCompress_skip _ elapsed p _ src.size ⟨compressedFilePathOf p, sz, ct⟩
      hout h0 hgt]
    exact getFile_removeFile_self _ _
  · intro disk engine elapsed p src sz ct hsrc heng h0 hle hne
    have hw2 : compress_pdf_with_ghostscript false disk engine elapsed p false =
        realCompress (setFile disk (compressedFilePathOf p) sz ct) 0 elapsed p
          (compressedFilePathOf p) src.size := by
      rw [worker_real disk engine elapsed p src hsrc, heng]
      rfl
    have hout := getFile_setFile_self disk (compressedFilePathOf p) sz ct
    rw [hw2, realCompress_done _ elapsed p _ src.size ⟨compressedFilePathOf p, sz, ct⟩
      hout h0 hle]
    rw [show WorkerResult.disk ⟨Except.ok (some
        { fileName := pyBasename p
          fileLocation := p
          originalSizeMB := mbOf src.size
          compressedSizeMB := mbOf (⟨compressedFilePathOf p, sz, ct⟩ : FileEntry).size
          sizeReductionPct := 100 * (1 -
            ((⟨compressedFilePathOf p, sz, ct⟩ : FileEntry).size : ℚ) / (src.size : ℚ))
          timeTakenSec := elapsed
          compressedPDF := "file://" ++ p }),
        setFile (removeFile (setFile disk (compressedFilePathOf p) sz ct)
          (compressedFilePathOf p)) p (⟨compressedFilePathOf p, sz, ct⟩ : FileEntry).size
          (⟨compressedFilePathOf p, sz, ct⟩ : FileEntry).content,
        doneMsgs p src.size (⟨compressedFilePathOf p, sz, ct⟩ : FileEntry).size elapsed, 1⟩ =
        setFile (removeFile (setFile disk (compressedFilePathOf p) sz ct)
          (compressedFilePathOf p)) p sz ct from rfl]
    rw [getFile_setFile_ne _ _ _ _ _ hne]
    exact getFile_removeFile_self _ _

/-- C4 witness: concrete instances of the three exit paths of the amended
claim. -/
theorem temp_file_lifecycle_wit :
    ((1 : Nat) ≠ 0 ∧ (⟨"d/a.pdf", 100, 7⟩ : FileEntry).size ≠ 0 ∧
     (⟨"d/a.pdf", 100, 7⟩ : FileEntry).size < 300 ∧ (50 : Nat) ≤ 100 ∧
     compressedFilePathOf "d/a.pdf" ≠ "d/a.pdf") ∧
    getFile (compress_pdf_with_ghostscript false diskA engineFail1 0 "d/a.pdf" false).disk
        (compressedFilePathOf "d/a.pdf") = some ⟨compressedFilePathOf "d/a.pdf", 10, 99⟩ ∧
    getFile (compress_pdf_with_ghostscript false diskA engineBig 0 "d/a.pdf" false).disk
        (compressedFilePathOf "d/a.pdf") = none ∧
    getFile (compress_pdf_with_ghostscript false diskA engineHalf 0 "d/a.pdf" false).disk
        (compressedFilePathOf "d/a.pdf") = none :=
  ⟨⟨by decide, by decide, by decide, by decide, by decide⟩,
   (temp_file_lifecycle.1 diskA engineFail1 0 "d/a.pdf" ⟨"d/a.pdf", 100, 7⟩ 1 10 99
     (by decide) (by decide) (by decide)).2,
   temp_file_lifecycle.2.1 diskA engineBig 0 "d/a.pdf" ⟨"d/a.pdf", 100, 7⟩ 300 12
     (by decide) (by decide) (by decide) (by decide),
   temp_file_lifecycle.2.2 diskA engineHalf 0 "d/a.pdf" ⟨"d/a.pdf", 100, 7⟩ 50 11
     (by decide) (by decide) (by decide) (by decide) (by decide)⟩

/-- C9 (code bug): the CSV writer is handed the worker dictionaries, which
hold the keys File Location and Compressed PDF that are not among the CSV
fieldnames; csv.DictWriter with its default extrasaction='raise' raises
ValueError on every such row, so any run with at least one outcome aborts
during CSV writing, with no CSV row appended and the HTML report never
generated — the two reports cannot both reflect the outcome set. -/
theorem csv_writer_rejects_outcome_rows :
    (∀ (o : Outcome) (reportExists : Bool),
      create_csv_report reportExists [outcomeDict o] =
        .error (.valueError "dict contains fields not in fieldnames")) ∧
    (compress_pdfs_in_directory fsFive engineHalf (fun _ => 0) false true 0 false).result =
        .error (.valueError "dict contains fields not in fieldnames") ∧
    (compress_pdfs_in_directory fsFive engineHalf (fun _ => 0) false true 0
        false).csvAppended = none ∧
    (compress_pdfs_in_directory fsFive engineHalf (fun _ => 0) false true 0
        false).htmlRows = none := by
  refine ⟨fun o reportExists => rfl, ?_⟩
  unfold compress_pdfs_in_directory
  rw [discoverPdfFiles_eq]
  decide

/-- C10 counterexample: in the boundary case where the engine output size
equals the original size but both are zero, no outcome is returned and the
file is not replaced: line 125 raises ZeroDivisionError. -/
theorem zero_size_boundary_raises :
    (compress_pdf_with_ghostscript false diskZero engineNil 0 "d/a.pdf" false).result =
        .error .zeroDivisionError := by
  decide

/-- C10 (amended): every outcome returned by a real-mode worker invocation
has compressed size at most the original size and size-reduction percentage
at least zero; and in the boundary case where the engine output size equals
a nonzero original size, the file is still replaced and an outcome with
reduction exactly 0 is returned rather than a skip. -/
theorem real_outcome_reduction_nonneg :
    (∀ (disk : List FileEntry) (engine : Engine) (elapsed : ℚ) (p : String) (o : Outcome),
      (compress_pdf_with_ghostscript false disk engine elapsed p false).result =
          .ok (some o) →
      o.compressedSizeMB ≤ o.originalSizeMB ∧ 0 ≤ o.sizeReductionPct) ∧
    (∀ (disk : List FileEntry) (engine : Engine) (elapsed : ℚ) (p : String)
        (src : FileEntry) (ct : Nat),
      getFile disk p = some src →
      engine p (compressedFilePathOf p) = ⟨0, some (src.size, ct)⟩ →
      src.size ≠ 0 →
      ∃ o : Outcome,
        (compress_pdf_with_ghostscript false disk engine elapsed p false).result =
            .ok (some o) ∧
        o.sizeReductionPct = 0 ∧
        getFile (compress_pdf_with_ghostscript false disk engine elapsed p false).disk p =
            some ⟨p, src.size, ct⟩) := by
  constructor
  · intro disk engine elapsed p o h
    rcases hg : getFile disk p with _ | src
    · rw [show compress_pdf_with_ghostscript false disk engine elapsed p false =
          ⟨.error (.fileNotFoundError p), disk, [], 0⟩ from by
            simp [compress_pdf_with_ghostscript, hg]] at h
      simp at h
    · rw [worker_real disk engine elapsed p src hg] at h
      obtain ⟨out, hout, h0, hle, ho1, ho2, ho3⟩ := realCompress_ok_some _ _ _ _ _ _ _ h
      have hosz : (0 : ℚ) < (src.size : ℚ) := by
        exact_mod_cast Nat.pos_of_ne_zero h0
      constructor
      · rw [ho1, ho2]
        unfold mbOf
        rw [div_le_div_iff_of_pos_right (by norm_num : (0:ℚ) < 1024 * 1024)]
        exact_mod_cast hle
      · rw [ho3]
        have hdiv : (out.size : ℚ) / (src.size : ℚ) ≤ 1 := by
          rw [div_le_one hosz]
          exact_mod_cast hle
        linarith
  · intro disk engine elapsed p src ct hsrc heng h0
    have hw2 : compress_pdf_with_ghostscript false disk engine elapsed p false =
        realCompress (setFile disk (compressedFilePathOf p) src.size ct) 0 elapsed p
          (compressedFilePathOf p) src.size := by
      rw [worker_real disk engine elapsed p src hsrc, heng]
      rfl
    have hout := getFile_setFile_self disk (compressedFilePathOf p) src.size ct
    have hdone := realCompress_done (setFile disk (compressedFilePathOf p) src.size ct)
      elapsed p (compressedFilePathOf p) src.size ⟨compressedFilePathOf p, src.size, ct⟩
      hout h0 (Nat.le_refl src.size)
    rw [hw2, hdone]
    refine ⟨_, rfl, ?_, ?_⟩
    · show (100 : ℚ) * (1 - (src.size : ℚ) / (src.size : ℚ)) = 0
      rw [div_self (by exact_mod_cast h0 : (src.size : ℚ) ≠ 0)]
      ring
    · show getFile (setFile (removeFile (setFile disk (compressedFilePathOf p) src.size ct)
        (compressedFilePathOf p)) p src.size ct) p = some ⟨p, src.size, ct⟩
      exact getFile_setFile_self _ _ _ _

/-- C10 witness: concrete instances of both parts of the amended claim. -/
theorem real_outcome_reduction_nonneg_wit :
    ((compress_pdf_with_ghostscript false diskA engineHalf 0 "d/a.pdf" false).result =
        .ok (some
          { fileName := pyBasename "d/a.pdf"
            fileLocation := "d/a.pdf"
            originalSizeMB := mbOf 100
            compressedSizeMB := mbOf 50
            sizeReductionPct := 100 * (1 - ((50 : ℕ) : ℚ) / ((100 : ℕ) : ℚ))
            timeTakenSec := 0
            compressedPDF := "file://" ++ "d/a.pdf" }) ∧
      (mbOf 50 ≤ mbOf 100 ∧
       (0 : ℚ) ≤ 100 * (1 - ((50 : ℕ) : ℚ) / ((100 : ℕ) : ℚ)))) ∧
    ((⟨"d/a.pdf", 100, 7⟩ : FileEntry).size ≠ 0 ∧
     ∃ o : Outcome,
       (compress_pdf_with_ghostscript false diskA engineEq 0 "d/a.pdf" false).result =
           .ok (some o) ∧
       o.sizeReductionPct = 0 ∧
       getFile (compress_pdf_with_ghostscript false diskA engineEq 0 "d/a.pdf" false).disk
           "d/a.pdf" = some ⟨"d/a.pdf", 100, 13⟩) :=
  have h1 := real_outcome_reduction_nonneg.1 diskA engineHalf 0 "d/a.pdf"
    { fileName := pyBasename "d/a.pdf"
      fileLocation := "d/a.pdf"
      originalSizeMB := mbOf 100
      compressedSizeMB := mbOf 50
      sizeReductionPct := 100 * (1 - ((50 : ℕ) : ℚ) / ((100 : ℕ) : ℚ))
      timeTakenSec := 0
      compressedPDF := "file://" ++ "d/a.pdf" } rfl
  have h2 := real_outcome_reduction_nonneg.2 diskA engineEq 0 "d/a.pdf"
    ⟨"d/a.pdf", 100, 7⟩ 13 (by decide) (by decide) (by decide)
  ⟨⟨rfl, h1⟩, ⟨by decide, h2⟩⟩
